import Mathlib

/-!
Gossipsub message identifiers and parameters: a verified embedding.

A shallow embedding of `lean_spec/subspecs/networking/gossipsub.py`:
the gossipsub parameter model `GossipsubParameters` and the message-id
computation `compute_message_id` / `_compute_message_id_with_domain`,
together with an executable SHA-256 (FIPS 180-4) matching Python's
`hashlib.sha256`.  Byte sequences are modelled as `List Nat` with each
entry below 256; 32-bit words are `Nat` reduced modulo `2 ^ 32` at every
arithmetic step.
-/

namespace Gossipsub

/-! ## SHA-256 (FIPS 180-4), as used via `hashlib.sha256` -/

/-- Addition of 32-bit words: sum reduced modulo `2 ^ 32`. -/
def add32 (a b : Nat) : Nat := (a + b) % 4294967296

/-- Right rotation of a 32-bit word by `n` places. -/
def rotr32 (n x : Nat) : Nat :=
  Nat.lor (Nat.shiftRight x n) (Nat.shiftLeft x (32 - n)) % 4294967296

/-- The SHA-256 round constants `K`. -/
def kConstants : List Nat :=
  [1116352408, 1899447441, 3049323471, 3921009573,
   961987163, 1508970993, 2453635748, 2870763221,
   3624381080, 310598401, 607225278, 1426881987,
   1925078388, 2162078206, 2614888103, 3248222580,
   3835390401, 4022224774, 264347078, 604807628,
   770255983, 1249150122, 1555081692, 1996064986,
   2554220882, 2821834349, 2952996808, 3210313671,
   3336571891, 3584528711, 113926993, 338241895,
   666307205, 773529912, 1294757372, 1396182291,
   1695183700, 1986661051, 2177026350, 2456956037,
   2730485921, 2820302411, 3259730800, 3345764771,
   3516065817, 3600352804, 4094571909, 275423344,
   430227734, 506948616, 659060556, 883997877,
   958139571, 1322822218, 1537002063, 1747873779,
   1955562222, 2024104815, 2227730452, 2361852424,
   2428436474, 2756734187, 3204031479, 3329325298]

/-- The SHA-256 working state: eight 32-bit words. -/
structure Sha256State where
  w0 : Nat
  w1 : Nat
  w2 : Nat
  w3 : Nat
  w4 : Nat
  w5 : Nat
  w6 : Nat
  w7 : Nat
deriving Repr, DecidableEq

/-- The SHA-256 initial hash value `H⁽⁰⁾`. -/
def initState : Sha256State :=
  ⟨1779033703, 3144134277, 1013904242, 2773480762,
   1359893119, 2600822924, 528734635, 1541459225⟩

/-- The small sigma-0 word function of the message schedule. -/
def smallSigma0 (x : Nat) : Nat :=
  Nat.xor (Nat.xor (rotr32 7 x) (rotr32 18 x)) (Nat.shiftRight x 3)

/-- The small sigma-1 word function of the message schedule. -/
def smallSigma1 (x : Nat) : Nat :=
  Nat.xor (Nat.xor (rotr32 17 x) (rotr32 19 x)) (Nat.shiftRight x 10)

/-- The big sigma-0 word function of the round. -/
def bigSigma0 (x : Nat) : Nat :=
  Nat.xor (Nat.xor (rotr32 2 x) (rotr32 13 x)) (rotr32 22 x)

/-- The big sigma-1 word function of the round. -/
def bigSigma1 (x : Nat) : Nat :=
  Nat.xor (Nat.xor (rotr32 6 x) (rotr32 11 x)) (rotr32 25 x)

/-- The choice function `Ch(e, f, g)`. -/
def chFun (e f g : Nat) : Nat :=
  Nat.xor (Nat.land e f) (Nat.land (Nat.xor e 4294967295) g)

/-- The majority function `Maj(a, b, c)`. -/
def majFun (a b c : Nat) : Nat :=
  Nat.xor (Nat.xor (Nat.land a b) (Nat.land a c)) (Nat.land b c)

/-- Extend a 16-word block to the full 64-word message schedule, appending
`steps` further words. -/
def extendSchedule : List Nat → Nat → List Nat
  | ws, 0 => ws
  | ws, Nat.succ k =>
    let i := ws.length
    let w := add32 (add32 (smallSigma1 (ws.getD (i - 2) 0)) (ws.getD (i - 7) 0))
      (add32 (smallSigma0 (ws.getD (i - 15) 0)) (ws.getD (i - 16) 0))
    extendSchedule (ws ++ [w]) k

/-- One SHA-256 round: consume a `(K, W)` pair and update the working state. -/
def sha256Round (st : Sha256State) (kw : Nat × Nat) : Sha256State :=
  let t1 := add32 st.w7 (add32 (bigSigma1 st.w4) (add32 (chFun st.w4 st.w5 st.w6)
    (add32 kw.1 kw.2)))
  let t2 := add32 (bigSigma0 st.w0) (majFun st.w0 st.w1 st.w2)
  ⟨add32 t1 t2, st.w0, st.w1, st.w2, add32 st.w3 t1, st.w4, st.w5, st.w6⟩

/-- Compress one 16-word block into the running hash state. -/
def compress (st : Sha256State) (blockWords : List Nat) : Sha256State :=
  let ws := extendSchedule blockWords 48
  let t := (kConstants.zip ws).foldl sha256Round st
  ⟨add32 st.w0 t.w0, add32 st.w1 t.w1, add32 st.w2 t.w2, add32 st.w3 t.w3,
   add32 st.w4 t.w4, add32 st.w5 t.w5, add32 st.w6 t.w6, add32 st.w7 t.w7⟩

/-- A natural number as `n` big-endian bytes (most significant first). -/
def toBytesBE : Nat → Nat → List Nat
  | 0, _ => []
  | Nat.succ k, x => toBytesBE k (x / 256) ++ [x % 256]

/-- SHA-256 padding: append the byte `128` (`0x80`), zeros to 56 mod 64, then the
bit length as an 8-byte big-endian integer. -/
def padMessage (msg : List Nat) : List Nat :=
  let l := msg.length
  let zeros := (64 + 56 - (l + 1) % 64) % 64
  msg ++ [128] ++ List.replicate zeros 0 ++ toBytesBE 8 (8 * l)

/-- Group a byte list into 32-bit big-endian words. -/
def toWordsBE : List Nat → List Nat
  | b0 :: b1 :: b2 :: b3 :: rest =>
    (((b0 * 256 + b1) * 256 + b2) * 256 + b3) :: toWordsBE rest
  | _ => []

/-- Split a word list into 16-word blocks, with a structural fuel counter
bounding the number of blocks produced. -/
def toBlocksAux : Nat → List Nat → List (List Nat)
  | 0, _ => []
  | Nat.succ k, ws => if ws = [] then [] else ws.take 16 :: toBlocksAux k (ws.drop 16)

/-- Split a word list into 16-word blocks. -/
def toBlocks (ws : List Nat) : List (List Nat) := toBlocksAux ws.length ws

/-- A 32-bit word as its four big-endian bytes. -/
def wordToBytes (w : Nat) : List Nat :=
  [w / 16777216 % 256, w / 65536 % 256, w / 256 % 256, w % 256]

/-- The final hash state as the 32 digest bytes, each word big-endian. -/
def stateToBytes (st : Sha256State) : List Nat :=
  wordToBytes st.w0 ++ wordToBytes st.w1 ++ wordToBytes st.w2 ++ wordToBytes st.w3 ++
  wordToBytes st.w4 ++ wordToBytes st.w5 ++ wordToBytes st.w6 ++ wordToBytes st.w7

/-- SHA-256 of a byte sequence, as its 32 digest bytes.  This is the
`hashlib.sha256(data).digest()` of the source. -/
def sha256 (msg : List Nat) : List Nat :=
  stateToBytes ((toBlocks (toWordsBE (padMessage msg))).foldl compress initState)

/-- Anchor: the FIPS 180-4 test vector for the empty message. -/
theorem sha256_empty_vector :
    sha256 [] =
      [227, 176, 196, 66, 152, 252, 28, 20,
       154, 251, 244, 200, 153, 111, 185, 36,
       39, 174, 65, 228, 100, 155, 147, 76,
       164, 149, 153, 27, 120, 82, 184, 85] := by decide

/-- Anchor: the FIPS 180-4 test vector for the message `"abc"`. -/
theorem sha256_abc_vector :
    sha256 [97, 98, 99] =
      [186, 120, 22, 191, 143, 1, 207, 234,
       65, 65, 64, 222, 93, 174, 34, 35,
       176, 3, 97, 163, 150, 23, 122, 156,
       180, 16, 255, 97, 242, 0, 21, 173] := by decide

/-! ## Domain constants

The Python module imports `MESSAGE_DOMAIN_VALID_SNAPPY` and
`MESSAGE_DOMAIN_INVALID_SNAPPY` from `lean_spec.subspecs.networking.config`,
which is outside the given source tree. -/

/-- Modelled from the spec: `MESSAGE_DOMAIN_INVALID_SNAPPY`, the 4-byte
domain tag for the invalid-snappy path, defined in the external
`networking.config` module.  The spec fixes only that it is a 4-byte
constant distinct from the valid-snappy domain; the wire-protocol
convention `0x00000000` is used here. -/
def MESSAGE_DOMAIN_INVALID_SNAPPY : List Nat := [0, 0, 0, 0]

/-- Modelled from the spec: `MESSAGE_DOMAIN_VALID_SNAPPY`, the 4-byte
domain tag for the valid-snappy path, defined in the external
`networking.config` module.  The spec fixes only that it is a 4-byte
constant distinct from the invalid-snappy domain; the wire-protocol
convention `0x01000000` is used here. -/
def MESSAGE_DOMAIN_VALID_SNAPPY : List Nat := [1, 0, 0, 0]

/-! ## Message-id computation -/

/-- A natural number as 8 little-endian bytes: `len(topic).to_bytes(8, "little")`.
Faithful to the Python for values below `2 ^ 64` (beyond which `to_bytes`
raises `OverflowError`). -/
def toBytesLE8 (n : Nat) : List Nat :=
  [n % 256, n / 256 % 256, n / 65536 % 256, n / 16777216 % 256,
   n / 4294967296 % 256, n / 1099511627776 % 256,
   n / 281474976710656 % 256, n / 72057594037927936 % 256]

/-- The exact byte string fed to SHA-256 by `_compute_message_id_with_domain`:
`domain + topic_len_bytes + topic + message_data` (line 124 of the source). -/
def dataToHash (domain topic messageData : List Nat) : List Nat :=
  domain ++ toBytesLE8 topic.length ++ topic ++ messageData

/-- The function `_compute_message_id_with_domain(domain, topic, message_data)`:
`SHA256(domain + uint64_le(len(topic)) + topic + message_data)[:20]`. -/
def computeMessageIdWithDomain (domain topic messageData : List Nat) : List Nat :=
  (sha256 (dataToHash domain topic messageData)).take 20

/-- The function `compute_message_id(topic, data, snappy_decompress)`.  The optional
decompressor is a function that either returns the decompressed bytes or
fails; the Python `try`/`except Exception` around its invocation becomes a
match on the `Except` result, and a failure falls through to the
invalid-snappy path over the untouched `data`. -/
def computeMessageId {ε : Type} (topic data : List Nat)
    (snappyDecompress : Option (List Nat → Except ε (List Nat))) : List Nat :=
  match snappyDecompress with
  | some f =>
    match f data with
    | Except.ok decompressedData =>
      computeMessageIdWithDomain MESSAGE_DOMAIN_VALID_SNAPPY topic decompressedData
    | Except.error _ =>
      computeMessageIdWithDomain MESSAGE_DOMAIN_INVALID_SNAPPY topic data
  | none =>
    computeMessageIdWithDomain MESSAGE_DOMAIN_INVALID_SNAPPY topic data

/-- The function `compute_message_id` with the decompressor invocation instrumented:
the same control flow as `computeMessageId`, threading an explicit trace
that records the argument of every call to the decompressor.  Returns the
message id together with the trace. -/
def computeMessageIdTraced {ε : Type} (topic data : List Nat)
    (snappyDecompress : List Nat → Except ε (List Nat)) :
    List Nat × List (List Nat) :=
  let call := fun (tr : List (List Nat)) (x : List Nat) =>
    (snappyDecompress x, tr ++ [x])
  match call [] data with
  | (Except.ok decompressedData, tr) =>
    (computeMessageIdWithDomain MESSAGE_DOMAIN_VALID_SNAPPY topic decompressedData, tr)
  | (Except.error _, tr) =>
    (computeMessageIdWithDomain MESSAGE_DOMAIN_INVALID_SNAPPY topic data, tr)

/-! ## Gossipsub parameters

`GossipsubParameters` is a `StrictBaseModel` (a pydantic model): each field
has a declared type and a default, and the class body declares no field or
model validators.  Python `int` fields are modelled as `Int` and the single
`float` field as the rational its literal denotes. -/

/-- The `GossipsubParameters` model: the canonical gossipsub parameters. -/
structure GossipsubParameters where
  protocol_id : String
  d : Int
  d_low : Int
  d_high : Int
  d_lazy : Int
  heartbeat_interval_secs : ℚ
  fanout_ttl_secs : Int
  mcache_len : Int
  mcache_gossip : Int
  seen_ttl_secs : Int
deriving Repr, DecidableEq

/-- Modelled from the spec: the chain-timing constants supplied by
`DEVNET_CONFIG` in `lean_spec.subspecs.chain.config`, which is outside the
given source tree.  The spec states only that `seen_ttl_secs` is derived
from an externally supplied slot duration and justification lookback. -/
structure ChainTimingConfig where
  second_per_slot : Int
  justification_lookback_slots : Int

/-- The configuration error the spec names for invalid parameter sets. -/
structure ConfigurationError where
  message : String

/-- Construction of a `GossipsubParameters` instance from explicit field
values, as pydantic performs it for the source class: the class body
declares no field or model validators, so any well-typed field values are
accepted and stored unchanged. -/
def mkGossipsubParameters (protocolId : String) (dVal dLowVal dHighVal dLazyVal : Int)
    (heartbeatIntervalSecs : ℚ) (fanoutTtlSecs mcacheLenVal mcacheGossipVal seenTtlSecs : Int) :
    Except ConfigurationError GossipsubParameters :=
  Except.ok ⟨protocolId, dVal, dLowVal, dHighVal, dLazyVal, heartbeatIntervalSecs,
    fanoutTtlSecs, mcacheLenVal, mcacheGossipVal, seenTtlSecs⟩

/-- The default field values of `GossipsubParameters`, as declared in the
class body; `seen_ttl_secs` defaults to
`DEVNET_CONFIG.second_per_slot * DEVNET_CONFIG.justification_lookback_slots * 2`. -/
def defaultGossipsubParameters (cfg : ChainTimingConfig) : GossipsubParameters :=
  { protocol_id := "/meshsub/1.0.0"
    d := 8
    d_low := 6
    d_high := 12
    d_lazy := 6
    heartbeat_interval_secs := 0.7
    fanout_ttl_secs := 60
    mcache_len := 6
    mcache_gossip := 3
    seen_ttl_secs := cfg.second_per_slot * cfg.justification_lookback_slots * 2 }

/-- The parameter invariant the spec states: `d_low ≤ d ≤ d_high` and all
counts and durations strictly positive. -/
def specInvariant (p : GossipsubParameters) : Prop :=
  p.d_low ≤ p.d ∧ p.d ≤ p.d_high ∧
  0 < p.d ∧ 0 < p.d_low ∧ 0 < p.d_high ∧ 0 < p.d_lazy ∧
  0 < p.heartbeat_interval_secs ∧ 0 < p.fanout_ttl_secs ∧
  0 < p.mcache_len ∧ 0 < p.mcache_gossip ∧ 0 < p.seen_ttl_secs

/-! ## Concrete scenario inputs -/

/-- The topic `b"foo"`. -/
def fooTopic : List Nat := [102, 111, 111]

/-- The payload `b"bar"`. -/
def barPayload : List Nat := [98, 97, 114]

/-- The byte string `b"baz"`. -/
def bazBytes : List Nat := [98, 97, 122]

/-- A decompressor mapping `b"bar"` to `b"baz"` and failing elsewhere. -/
def barToBaz : List Nat → Except Unit (List Nat) :=
  fun x => if x = barPayload then Except.ok bazBytes else Except.error ()

/-- A decompressor that fails on every input. -/
def alwaysFails : List Nat → Except Unit (List Nat) :=
  fun _ => Except.error ()

/-- A decompressor that succeeds on every input, returning it unchanged:
its output is byte-for-byte equal to the raw payload. -/
def identityDecompressor : List Nat → Except Unit (List Nat) :=
  fun x => Except.ok x

/-- A decompressor over a different error type with the same behavior as
`barToBaz` on `b"bar"`: it returns `b"baz"` on every input. -/
def bazAlways : List Nat → Except String (List Nat) :=
  fun _ => Except.ok bazBytes

/-- Two optional decompressors, possibly over different error types, show
the same behavior on a payload: both absent, or both present with the same
success/failure outcome at that payload and the same decompressed output on
success. -/
def sameDecompressorBehavior {ε₁ ε₂ : Type} (payload : List Nat) :
    Option (List Nat → Except ε₁ (List Nat)) →
    Option (List Nat → Except ε₂ (List Nat)) → Prop
  | none, none => True
  | some f, some g => (f payload).toOption = (g payload).toOption
  | some _, none => False
  | none, some _ => False

/-- A truncated-SHA-256 collision: two distinct byte strings whose digests
agree on the leading 20 bytes. -/
def sha256TruncatedCollision (m₁ m₂ : List Nat) : Prop :=
  m₁ ≠ m₂ ∧ (sha256 m₁).take 20 = (sha256 m₂).take 20

/-! ## Helper lemmas -/

/-- A SHA-256 digest is 32 bytes. -/
theorem sha256_length (msg : List Nat) : (sha256 msg).length = 32 := by
  simp [sha256, stateToBytes, wordToBytes]

/-- The domain-tagged message id is always 20 bytes. -/
theorem computeMessageIdWithDomain_length (domain topic messageData : List Nat) :
    (computeMessageIdWithDomain domain topic messageData).length = 20 := by
  simp [computeMessageIdWithDomain, List.length_take, sha256_length]

/-- The 8-byte little-endian length encoding is injective below `2 ^ 64`. -/
theorem toBytesLE8_injOn {n m : Nat} (hn : n < 18446744073709551616)
    (hm : m < 18446744073709551616) (h : toBytesLE8 n = toBytesLE8 m) : n = m := by
  simp only [toBytesLE8, List.cons.injEq, and_true] at h
  omega

/-! ## Claim theorems -/

/-- C1: for every domain tag, topic, and effective payload, the message id
is the first 20 bytes of SHA-256 of `domain`, then the topic length as an
8-byte little-endian unsigned integer, then the topic, then the effective
payload, in that order; in particular with topic `b"foo"`, payload
`b"bar"`, and no decompressor, it is the first 20 bytes of
`SHA256(INVALID_DOMAIN ++ 0x0300000000000000 ++ "foo" ++ "bar")`. -/
theorem message_id_byte_layout (domain topic payload : List Nat) :
    computeMessageIdWithDomain domain topic payload =
      (sha256 (domain ++ toBytesLE8 topic.length ++ topic ++ payload)).take 20 ∧
    computeMessageId topic payload (none : Option (List Nat → Except Unit (List Nat))) =
      (sha256 (MESSAGE_DOMAIN_INVALID_SNAPPY ++ toBytesLE8 topic.length ++
        topic ++ payload)).take 20 ∧
    computeMessageId fooTopic barPayload (none : Option (List Nat → Except Unit (List Nat))) =
      (sha256 (MESSAGE_DOMAIN_INVALID_SNAPPY ++ [3, 0, 0, 0, 0, 0, 0, 0] ++
        fooTopic ++ barPayload)).take 20 :=
  ⟨rfl, rfl, rfl⟩

/-- C2: a decompressor that fails (with an error of any kind) on the
payload never makes `compute_message_id` fail — the function is total by
construction — and the result equals the call with no decompressor at all:
the invalid-snappy path over the original untouched payload. -/
theorem decompressor_failure_absorbed {ε : Type} (topic data : List Nat)
    (f : List Nat → Except ε (List Nat)) (e : ε)
    (hf : f data = Except.error e) :
    computeMessageId topic data (some f) =
      computeMessageId topic data (none : Option (List Nat → Except ε (List Nat))) := by
  simp [computeMessageId, hf]

/-- Witness for C2 at topic `b"foo"`, payload `b"bar"`, and a decompressor
failing on every input. -/
theorem decompressor_failure_absorbed_witness :
    alwaysFails barPayload = Except.error () ∧
    computeMessageId fooTopic barPayload (some alwaysFails) =
      computeMessageId fooTopic barPayload
        (none : Option (List Nat → Except Unit (List Nat))) :=
  ⟨rfl, decompressor_failure_absorbed fooTopic barPayload alwaysFails () rfl⟩

/-- C3 counterexample: constructing the parameters with `d_low = 100` and
`d = 8` violates the spec's ordering invariant, yet construction succeeds —
the source class declares no validator, so no `ConfigurationError` is
raised. -/
theorem params_validation_counterexample :
    mkGossipsubParameters "/meshsub/1.0.0" 8 100 12 6 (7 / 10) 60 6 3 60 =
      Except.ok ⟨"/meshsub/1.0.0", 8, 100, 12, 6, 7 / 10, 60, 6, 3, 60⟩ ∧
    ¬ specInvariant ⟨"/meshsub/1.0.0", 8, 100, 12, 6, 7 / 10, 60, 6, 3, 60⟩ :=
  ⟨rfl, fun h => absurd h.1 (by decide)⟩

/-- C3 amended: construction of `GossipsubParameters` is total — any
well-typed field values are accepted and stored unchanged, with no
ordering or positivity invariant checked. -/
theorem params_construction_total (protocolId : String)
    (dVal dLowVal dHighVal dLazyVal : Int) (heartbeatIntervalSecs : ℚ)
    (fanoutTtlSecs mcacheLenVal mcacheGossipVal seenTtlSecs : Int) :
    mkGossipsubParameters protocolId dVal dLowVal dHighVal dLazyVal
      heartbeatIntervalSecs fanoutTtlSecs mcacheLenVal mcacheGossipVal seenTtlSecs =
      Except.ok ⟨protocolId, dVal, dLowVal, dHighVal, dLazyVal, heartbeatIntervalSecs,
        fanoutTtlSecs, mcacheLenVal, mcacheGossipVal, seenTtlSecs⟩ :=
  rfl

/-- C4: when the supplied decompressor succeeds on the payload, the id is
computed with the valid-snappy domain over the decompressor's output, not
the raw payload; in particular with topic `b"foo"`, payload `b"bar"`, and a
decompressor mapping `b"bar"` to `b"baz"`, it is the first 20 bytes of
`SHA256(VALID_DOMAIN ++ 0x0300000000000000 ++ "foo" ++ "baz")`. -/
theorem valid_snappy_path {ε : Type} (topic data out : List Nat)
    (f : List Nat → Except ε (List Nat)) (hf : f data = Except.ok out) :
    computeMessageId topic data (some f) =
      (sha256 (MESSAGE_DOMAIN_VALID_SNAPPY ++ toBytesLE8 topic.length ++
        topic ++ out)).take 20 ∧
    computeMessageId fooTopic barPayload (some barToBaz) =
      (sha256 (MESSAGE_DOMAIN_VALID_SNAPPY ++ [3, 0, 0, 0, 0, 0, 0, 0] ++
        fooTopic ++ bazBytes)).take 20 := by
  refine ⟨?_, rfl⟩
  simp [computeMessageId, hf, computeMessageIdWithDomain, dataToHash]

/-- Witness for C4 at topic `b"foo"`, payload `b"bar"`, and the decompressor
mapping `b"bar"` to `b"baz"`. -/
theorem valid_snappy_path_witness :
    barToBaz barPayload = Except.ok bazBytes ∧
    computeMessageId fooTopic barPayload (some barToBaz) =
      (sha256 (MESSAGE_DOMAIN_VALID_SNAPPY ++ toBytesLE8 fooTopic.length ++
        fooTopic ++ bazBytes)).take 20 :=
  ⟨rfl, (valid_snappy_path fooTopic barPayload bazBytes barToBaz rfl).1⟩

/-- C5: for every topic and payload — the empty ones included — and every
decompressor behavior (absent, succeeding, or failing), the message id is
exactly 20 bytes long. -/
theorem message_id_length {ε : Type} (topic data : List Nat)
    (snappyDecompress : Option (List Nat → Except ε (List Nat))) :
    (computeMessageId topic data snappyDecompress).length = 20 := by
  cases snappyDecompress with
  | none => exact computeMessageIdWithDomain_length _ _ _
  | some f =>
    cases hfd : f data <;>
      simp [computeMessageId, hfd, computeMessageIdWithDomain_length]

/-- C6: `compute_message_id` is deterministic — two calls with the same
topic, the same payload, and the same decompressor behavior on that payload
(same success/failure outcome and same decompressed output, even across
decompressors with different error types) return the same 20-byte id; the
result depends on nothing else. -/
theorem message_id_deterministic {ε₁ ε₂ : Type} (topic data : List Nat)
    (d₁ : Option (List Nat → Except ε₁ (List Nat)))
    (d₂ : Option (List Nat → Except ε₂ (List Nat)))
    (hb : sameDecompressorBehavior data d₁ d₂) :
    computeMessageId topic data d₁ = computeMessageId topic data d₂ ∧
    (computeMessageId topic data d₁).length = 20 := by
  constructor
  · cases d₁ with
    | none =>
      cases d₂ with
      | none => rfl
      | some g => exact absurd hb (by simp [sameDecompressorBehavior])
    | some f =>
      cases d₂ with
      | none => exact absurd hb (by simp [sameDecompressorBehavior])
      | some g =>
        simp only [sameDecompressorBehavior] at hb
        cases hfd : f data <;> cases hgd : g data <;>
          simp [hfd, hgd, Except.toOption] at hb <;>
          simp [computeMessageId, hfd, hgd, hb]
  · cases d₁ with
    | none => exact computeMessageIdWithDomain_length _ _ _
    | some f =>
      cases hfd : f data <;>
        simp [computeMessageId, hfd, computeMessageIdWithDomain_length]

/-- Witness for C6 at topic `b"foo"`, payload `b"bar"`, and two
decompressors over different error types that both return `b"baz"` on
`b"bar"`. -/
theorem message_id_deterministic_witness :
    sameDecompressorBehavior barPayload (some barToBaz) (some bazAlways) ∧
    (computeMessageId fooTopic barPayload (some barToBaz) =
      computeMessageId fooTopic barPayload (some bazAlways) ∧
    (computeMessageId fooTopic barPayload (some barToBaz)).length = 20) :=
  ⟨rfl, message_id_deterministic fooTopic barPayload (some barToBaz) (some bazAlways) rfl⟩

/-- C7: a parameter set constructed with no explicit arguments carries
exactly the documented defaults, with `seen_ttl_secs` equal to
`2 × slot_duration × justification_lookback` from the externally supplied
chain-timing constants. -/
theorem default_parameters (cfg : ChainTimingConfig) :
    (defaultGossipsubParameters cfg).protocol_id = "/meshsub/1.0.0" ∧
    (defaultGossipsubParameters cfg).d = 8 ∧
    (defaultGossipsubParameters cfg).d_low = 6 ∧
    (defaultGossipsubParameters cfg).d_high = 12 ∧
    (defaultGossipsubParameters cfg).d_lazy = 6 ∧
    (defaultGossipsubParameters cfg).heartbeat_interval_secs = 0.7 ∧
    (defaultGossipsubParameters cfg).fanout_ttl_secs = 60 ∧
    (defaultGossipsubParameters cfg).mcache_len = 6 ∧
    (defaultGossipsubParameters cfg).mcache_gossip = 3 ∧
    (defaultGossipsubParameters cfg).seen_ttl_secs =
      2 * cfg.second_per_slot * cfg.justification_lookback_slots := by
  refine ⟨rfl, rfl, rfl, rfl, rfl, rfl, rfl, rfl, rfl, ?_⟩
  simp [defaultGossipsubParameters]
  ring

/-- C8: for a fixed topic and payload, the id computed via a succeeding
decompressor differs from the id computed with no decompressor — unless
SHA-256, truncated to 20 bytes, collides on the two hash inputs, which are
always distinct since they differ in their 4-byte domain prefix; a failing
decompressor yields exactly the no-decompressor id; and concretely, for
topic `b"foo"` and payload `b"bar"` with a decompressor returning the raw
payload unchanged, the two ids really differ. -/
theorem domain_separation {ε₁ ε₂ : Type} (topic data out : List Nat)
    (f : List Nat → Except ε₁ (List Nat)) (g : List Nat → Except ε₂ (List Nat))
    (e : ε₂) (hf : f data = Except.ok out) (hg : g data = Except.error e) :
    (computeMessageId topic data (some f) ≠
        computeMessageId topic data (none : Option (List Nat → Except ε₁ (List Nat))) ∨
      sha256TruncatedCollision (dataToHash MESSAGE_DOMAIN_VALID_SNAPPY topic out)
        (dataToHash MESSAGE_DOMAIN_INVALID_SNAPPY topic data)) ∧
    computeMessageId topic data (some g) =
      computeMessageId topic data (none : Option (List Nat → Except ε₂ (List Nat))) ∧
    computeMessageId fooTopic barPayload (some identityDecompressor) ≠
      computeMessageId fooTopic barPayload
        (none : Option (List Nat → Except Unit (List Nat))) := by
  refine ⟨?_, by simp [computeMessageId, hg], by decide⟩
  by_cases h : computeMessageId topic data (some f) =
    computeMessageId topic data (none : Option (List Nat → Except ε₁ (List Nat)))
  · right
    refine ⟨?_, ?_⟩
    · simp [dataToHash, MESSAGE_DOMAIN_VALID_SNAPPY, MESSAGE_DOMAIN_INVALID_SNAPPY]
    · simpa [computeMessageId, hf, computeMessageIdWithDomain] using h
  · exact Or.inl h

/-- Witness for C8 at topic `b"foo"`, payload `b"bar"`, the identity
decompressor as the succeeding one (output byte-for-byte equal to the raw
payload), and the always-failing decompressor as the failing one. -/
theorem domain_separation_witness :
    identityDecompressor barPayload = Except.ok barPayload ∧
    alwaysFails barPayload = Except.error () ∧
    ((computeMessageId fooTopic barPayload (some identityDecompressor) ≠
        computeMessageId fooTopic barPayload
          (none : Option (List Nat → Except Unit (List Nat))) ∨
      sha256TruncatedCollision
        (dataToHash MESSAGE_DOMAIN_VALID_SNAPPY fooTopic barPayload)
        (dataToHash MESSAGE_DOMAIN_INVALID_SNAPPY fooTopic barPayload)) ∧
    computeMessageId fooTopic barPayload (some alwaysFails) =
      computeMessageId fooTopic barPayload
        (none : Option (List Nat → Except Unit (List Nat))) ∧
    computeMessageId fooTopic barPayload (some identityDecompressor) ≠
      computeMessageId fooTopic barPayload
        (none : Option (List Nat → Except Unit (List Nat)))) :=
  ⟨rfl, rfl,
    domain_separation fooTopic barPayload barPayload identityDecompressor
      alwaysFails () rfl rfl⟩

/-- C9: when a decompressor is supplied, it is invoked exactly once per
call, and its argument is exactly the raw payload — the topic is never
passed to it and its output is never fed back into it — while the computed
id agrees with `compute_message_id`. -/
theorem decompressor_called_once_on_payload {ε : Type} (topic data : List Nat)
    (f : List Nat → Except ε (List Nat)) :
    (computeMessageIdTraced topic data f).2 = [data] ∧
    (computeMessageIdTraced topic data f).1 = computeMessageId topic data (some f) := by
  cases hfd : f data <;>
    simp [computeMessageIdTraced, computeMessageId, hfd]

/-- C10: for a fixed domain tag, the byte string fed to SHA-256 determines
the topic and the effective payload: the 8-byte length prefix makes the
split unambiguous, for all topics whose length fits the encoding. -/
theorem prehash_encoding_injective (domain t₁ p₁ t₂ p₂ : List Nat)
    (h₁ : t₁.length < 18446744073709551616)
    (h₂ : t₂.length < 18446744073709551616)
    (heq : dataToHash domain t₁ p₁ = dataToHash domain t₂ p₂) :
    t₁ = t₂ ∧ p₁ = p₂ := by
  simp only [dataToHash, List.append_assoc] at heq
  have h3 := List.append_cancel_left heq
  have h4 := List.append_inj h3 (by simp [toBytesLE8])
  have hlen : t₁.length = t₂.length := toBytesLE8_injOn h₁ h₂ h4.1
  exact List.append_inj h4.2 hlen

/-- Witness for C10 at the invalid-snappy domain, topics `b"foo"`, and
payloads `b"bar"`. -/
theorem prehash_encoding_injective_witness :
    fooTopic.length < 18446744073709551616 ∧
    dataToHash MESSAGE_DOMAIN_INVALID_SNAPPY fooTopic barPayload =
      dataToHash MESSAGE_DOMAIN_INVALID_SNAPPY fooTopic barPayload ∧
    (fooTopic = fooTopic ∧ barPayload = barPayload) :=
  ⟨by decide, rfl,
    prehash_encoding_injective MESSAGE_DOMAIN_INVALID_SNAPPY fooTopic barPayload
      fooTopic barPayload (by decide) (by decide) rfl⟩

end Gossipsub
